import Mathlib

/-!
Verification development for `transfer_learning.py`: a two-phase
transfer-learning script (InceptionV3 backbone, two-class softmax head)
that reports scalar metrics to the meeshkan monitoring sink, checkpoints
weights per epoch, and saves a final model file.

The script is shallowly embedded below:
  * the model topology and trainable flags as a `List Layer`,
  * compile calls as `CompileConfig` values,
  * the observable I/O behaviour (directory reads, sink calls, prints,
    checkpoint/model writes, evaluate calls) as a trace `List Event`
    paired with `Option String`, where `some e` means an uncaught Python
    exception `e` aborted execution at that point,
  * environment-supplied data (image counts per directory, per-batch
    `logs` dictionaries, evaluation results, the sink's behaviour, the
    wall-clock timestamp) as parameters.
Scalar values are modelled as rationals `ℚ` (the script only moves them
around; no float arithmetic is performed on them).
-/

/-- A scalar value stored in a Keras `logs` dictionary: either a numeric
value (modelled as `ℚ`) or a non-numeric value on which Python's
`float(...)` raises. -/
inductive PyVal where
  | num (q : ℚ)
  | str (s : String)
  deriving DecidableEq, Repr

/-- The `logs` dictionary passed to `on_batch_end`, as an association list. -/
abbrev Logs := List (String × PyVal)

/-- Python dictionary subscript `logs[k]`: raises `KeyError` when absent. -/
def dictGet (d : Logs) (k : String) : Except String PyVal :=
  match d.find? (fun p => p.1 == k) with
  | some p => Except.ok p.2
  | none => Except.error ("KeyError: " ++ k)

/-- Python `float(v)`: succeeds on numbers, raises on non-numeric values. -/
def pyFloat : PyVal → Except String ℚ
  | PyVal.num q => Except.ok q
  | PyVal.str s => Except.error ("ValueError: could not convert string to float: " ++ s)

/-- Behaviour of `meeshkan.report_scalar` on a list of (name, value)
pairs: `none` means the call returned normally, `some e` means it raised
the exception `e`. -/
abbrev Sink := List (String × ℚ) → Option String

/-- Observable events of one execution of the script. -/
inductive Event where
  | flowFromDirectory (path : String)
  | sinkCall (args : List (String × ℚ))
  | printed (msg : String)
  | checkpointWrite (file : String)
  | evaluateCall (steps : Nat)
  | saveWrite (file : String)
  deriving DecidableEq, Repr

/-- The body of the `try:` block of `on_batch_end` (lines 47-48):
`meeshkan.report_scalar("Train loss", float(logs['loss']))` then
`meeshkan.report_scalar("Train accuracy", float(logs['categorical_accuracy']))`.
Returns the sink calls that were issued and `some e` when an exception
escaped the block (from subscripting, `float`, or the sink itself). -/
def tryReportTrain (sink : Sink) (logs : Logs) : List Event × Option String :=
  match Except.bind (dictGet logs "loss") pyFloat with
  | Except.error e => ([], some e)
  | Except.ok lossv =>
    match sink [("Train loss", lossv)] with
    | some e => ([Event.sinkCall [("Train loss", lossv)]], some e)
    | none =>
      match Except.bind (dictGet logs "categorical_accuracy") pyFloat with
      | Except.error e => ([Event.sinkCall [("Train loss", lossv)]], some e)
      | Except.ok accv =>
        match sink [("Train accuracy", accv)] with
        | some e => ([Event.sinkCall [("Train loss", lossv)],
                      Event.sinkCall [("Train accuracy", accv)]], some e)
        | none => ([Event.sinkCall [("Train loss", lossv)],
                    Event.sinkCall [("Train accuracy", accv)]], none)

/-- `on_batch_end(batch, logs)` (lines 45-50): the try body wrapped in
`except Exception as e: print(e)`. The `batch` argument is unused, as in
the source. The `Option String` component is the exception propagated to
the caller, if any. -/
def on_batch_end (sink : Sink) (_batch : Nat) (logs : Logs) : List Event × Option String :=
  match tryReportTrain sink logs with
  | (evs, some e) => (evs ++ [Event.printed e], none)
  | (evs, none) => (evs, none)

/-- Activation functions appearing in the script. -/
inductive Activation where
  | relu
  | softmax
  deriving DecidableEq, Repr

/-- Kinds of layers the script manipulates: the pretrained backbone
layers, and the newly added head layers. -/
inductive LayerKind where
  | backbone
  | globalAveragePooling2D
  | dense (units : Nat) (activation : Activation)
  deriving DecidableEq, Repr

/-- A Keras layer as the script sees it: a name, a kind, and the
`trainable` flag (Keras default: `True`). -/
structure Layer where
  name : String
  kind : LayerKind
  trainable : Bool := true
  deriving DecidableEq, Repr

/-- `GlobalAveragePooling2D()(x)` (line 22). -/
def pooling_layer : Layer := { name := "global_average_pooling2d_1", kind := LayerKind.globalAveragePooling2D }

/-- `Dense(1024, activation='relu')(x)` (line 25). -/
def dense_1 : Layer := { name := "dense_1", kind := LayerKind.dense 1024 Activation.relu }

/-- `Dense(512, activation='relu')(x)` (line 26). -/
def dense_2 : Layer := { name := "dense_2", kind := LayerKind.dense 512 Activation.relu }

/-- `Dense(32, activation='relu')(x)` (line 27). -/
def dense_3 : Layer := { name := "dense_3", kind := LayerKind.dense 32 Activation.relu }

/-- `predictions = Dense(2, activation='softmax')(x)` (line 30). -/
def predictions : Layer := { name := "dense_4", kind := LayerKind.dense 2 Activation.softmax }

/-- The newly added head layers, in graph order, as appended after the
backbone's output. -/
def headLayers : List Layer := [pooling_layer, dense_1, dense_2, dense_3, predictions]

/-- A Keras functional `Model`: its input (inherited from the backbone)
and its layer list. -/
structure ModelSpec where
  input : String
  layers : List Layer
  deriving DecidableEq, Repr

/-- `model = Model(inputs=base_model.input, outputs=predictions)`
(line 33): keeps the backbone's input, layers are the backbone layers
followed by the new head. The backbone (`InceptionV3(weights='imagenet',
include_top=False)`) is a parameter: `baseInput` its input tensor,
`baseLayers` its layer list. -/
def modelAfterBuild (baseInput : String) (baseLayers : List Layer) : ModelSpec :=
  { input := baseInput, layers := baseLayers ++ headLayers }

/-- `for layer in base_model.layers: layer.trainable = False` (lines 37-38). -/
def freezeAll (ls : List Layer) : List Layer :=
  ls.map (fun l => { l with trainable := false })

/-- The model after the phase-1 freeze: the backbone layer objects are
shared between `base_model` and `model`, so freezing them freezes the
corresponding prefix of `model.layers`; the new head layers keep the
default `trainable=True`. -/
def modelAfterPhase1Freeze (baseInput : String) (baseLayers : List Layer) : ModelSpec :=
  { input := baseInput, layers := freezeAll baseLayers ++ headLayers }

/-- Optimizers used by the two compile calls. Learning rates are exact
rationals. -/
inductive Optimizer where
  | rmsprop
  | sgd (lr : ℚ) (momentum : ℚ)
  deriving DecidableEq, Repr

/-- Arguments of a `model.compile(...)` call. -/
structure CompileConfig where
  optimizer : Optimizer
  loss : String
  metricNames : List String
  deriving DecidableEq, Repr

/-- Phase-1 compile (line 41): `optimizer='rmsprop',
loss='categorical_crossentropy', metrics=[metrics.categorical_accuracy]`. -/
def compile1 : CompileConfig :=
  { optimizer := Optimizer.rmsprop
    loss := "categorical_crossentropy"
    metricNames := ["categorical_accuracy"] }

/-- Phase-2 freeze (lines 97-100): `for layer in model.layers[:249]:
layer.trainable = False` then `for layer in model.layers[249:]:
layer.trainable = True`. -/
def phase2Freeze (ls : List Layer) : List Layer :=
  (ls.take 249).map (fun l => { l with trainable := false })
    ++ (ls.drop 249).map (fun l => { l with trainable := true })

/-- Phase-2 compile (lines 104-105): `optimizer=SGD(lr=0.0001,
momentum=0.9), loss='categorical_crossentropy',
metrics=[metrics.categorical_accuracy]`. -/
def compile2 : CompileConfig :=
  { optimizer := Optimizer.sgd (1 / 10000) (9 / 10)
    loss := "categorical_crossentropy"
    metricNames := ["categorical_accuracy"] }

/-- Run `f s, f (s+1), ..., f (s+count-1)` in order, concatenating their
event traces, aborting at the first call that propagates an exception
(Python control flow: an uncaught exception stops the enclosing loop). -/
def runSeq (f : Nat → List Event × Option String) : Nat → Nat → List Event × Option String
  | _, 0 => ([], none)
  | i, k + 1 =>
    match f i with
    | (evs, some e) => (evs, some e)
    | (evs, none) =>
      match runSeq f (i + 1) k with
      | (evs2, r) => (evs ++ evs2, r)

/-- Python `'%02d' % n` / `'{...:02d}'` formatting: zero-pad to width 2. -/
def fmt02 (n : Nat) : String :=
  if n < 10 then "0" ++ toString n else toString n

/-- The filename produced by `ModelCheckpoint('weights.\x7bepoch:02d\x7d.hdf5')`
for a given one-based epoch number: Keras formats the template with
`epoch + 1` at the end of zero-based epoch `epoch`. -/
def checkpointName (epoch : Nat) : String :=
  "weights." ++ fmt02 epoch ++ ".hdf5"

/-- `model.fit_generator(generator=..., steps_per_epoch=steps, epochs=epochs,
callbacks=[meeshkan_callback, ModelCheckpoint('weights.\x7bepoch:02d\x7d.hdf5')])`
(lines 80-84 and 120-124). For each zero-based epoch `e`: run `steps`
minibatches, each ending with the `on_batch_end` callback on the
framework-supplied `logs` dictionary `logsOf e b`, then the
`ModelCheckpoint` callback writes `weights.<e+1 padded>.hdf5`. An
exception escaping a callback aborts the fit. -/
def fit_generator (sink : Sink) (logsOf : Nat → Nat → Logs)
    (steps : Nat) (epochs : Nat) : List Event × Option String :=
  runSeq
    (fun e =>
      match runSeq (fun b => on_batch_end sink b (logsOf e b)) 0 steps with
      | (evs, some err) => (evs, some err)
      | (evs, none) => (evs ++ [Event.checkpointWrite (checkpointName (e + 1))], none))
    0 epochs

/-- `EPOCHS = 10` (line 115). -/
def EPOCHS : Nat := 10

/-- `TEST_INTERVAL = 1` (line 116). -/
def TEST_INTERVAL : Nat := 1

/-- The argument list of the test-metric report (line 128):
`meeshkan.report_scalar("Test loss", test_loss, "Test accuracy", test_accuracy)`. -/
def testArgs (p : ℚ × ℚ) : List (String × ℚ) :=
  [("Test loss", p.1), ("Test accuracy", p.2)]

/-- One iteration of the fine-tuning loop (lines 118-128):
`fit_generator(..., epochs=1, ...)`, then `if i % TEST_INTERVAL == 0:`
evaluate on the test generator and report both test metrics to the sink.
The report call is NOT inside any `try`: a sink exception propagates. -/
def fineTuneIter (sink : Sink) (logsOf : Nat → Nat → Nat → Logs)
    (evalRes : Nat → ℚ × ℚ) (sTrain sTest : Nat) (i : Nat) :
    List Event × Option String :=
  match fit_generator sink (logsOf i) sTrain 1 with
  | (evs, some e) => (evs, some e)
  | (evs, none) =>
    if i % TEST_INTERVAL == 0 then
      let evs2 := evs ++ [Event.evaluateCall sTest, Event.sinkCall (testArgs (evalRes i))]
      match sink (testArgs (evalRes i)) with
      | some e => (evs2, some e)
      | none => (evs2, none)
    else (evs, none)

/-- `for i in range(EPOCHS): ...` (lines 118-128). `logsOf i e b` is the
logs dictionary of batch `b` of (the single) epoch `e` of iteration `i`;
`evalRes i` is `(test_loss, test_accuracy)` returned by
`model.evaluate_generator` at iteration `i`. -/
def fineTuneLoop (sink : Sink) (logsOf : Nat → Nat → Nat → Logs)
    (evalRes : Nat → ℚ × ℚ) (sTrain sTest : Nat) : List Event × Option String :=
  runSeq (fineTuneIter sink logsOf evalRes sTrain sTest) 0 EPOCHS

/-- `for i, layer in enumerate(base_model.layers): print(i, layer.name)`
(lines 92-93). -/
def layerPrintEvents (baseLayers : List Layer) : List Event :=
  baseLayers.enum.map (fun p => Event.printed (toString p.1 ++ " " ++ p.2.name))

/-- `step_size_train = train_generator.n // train_generator.batch_size`
(lines 77, 110, 113): integer floor division of the number of images
found in the directory by the batch size 32 set in `_make_generator`. -/
def step_size (n : Nat) : Nat := n / 32

/-- `'tmnt_koopa_%d.h5' % (int(time.time() * 1000),)` (line 130). -/
def finalModelName (timestampMs : Nat) : String :=
  "tmnt_koopa_" ++ toString timestampMs ++ ".h5"

/-- The whole module body from the first generator creation onward
(lines 76-133), as a trace. `fs p` models
`datagen.flow_from_directory(p, ...)`: the number of images found under
directory `p`, or the exception raised (e.g. missing directory).
`logsOf1 e b` are the phase-1 batch logs, `logsOf2 i e b` the loop's,
`evalRes i` the loop's test evaluation results, `finalEval` the last
evaluation, `timestampMs` the value of `int(time.time() * 1000)`.
Steps, in source order: make the train generator and run the phase-1
fit (50 epochs); print the backbone layer names; remake the train
generator and make the test generator; run the fine-tuning loop; save
the final model; evaluate once more and print the result. -/
def script (fs : String → Except String Nat) (sink : Sink)
    (baseLayers : List Layer)
    (logsOf1 : Nat → Nat → Logs) (logsOf2 : Nat → Nat → Nat → Logs)
    (evalRes : Nat → ℚ × ℚ) (timestampMs : Nat) : List Event × Option String :=
  let ev0 := [Event.flowFromDirectory "./train/"]
  match fs "./train/" with
  | Except.error e => (ev0, some e)
  | Except.ok nTrain1 =>
    match fit_generator sink logsOf1 (step_size nTrain1) 50 with
    | (evs1, some e) => (ev0 ++ evs1, some e)
    | (evs1, none) =>
      let pre := ev0 ++ evs1 ++ layerPrintEvents baseLayers
        ++ [Event.flowFromDirectory "./train/"]
      match fs "./train/" with
      | Except.error e => (pre, some e)
      | Except.ok nTrain2 =>
        let pre2 := pre ++ [Event.flowFromDirectory "./test/"]
        match fs "./test/" with
        | Except.error e => (pre2, some e)
        | Except.ok nTest =>
          match fineTuneLoop sink logsOf2 evalRes (step_size nTrain2) (step_size nTest) with
          | (evs2, some e) => (pre2 ++ evs2, some e)
          | (evs2, none) =>
            (pre2 ++ evs2
              ++ [Event.saveWrite (finalModelName timestampMs),
                  Event.evaluateCall (step_size nTest),
                  Event.printed "test loss and accuracy"], none)

/-- The directory-read events of a trace. -/
def readsOf (evs : List Event) : List String :=
  evs.filterMap (fun ev =>
    match ev with
    | Event.flowFromDirectory p => some p
    | _ => none)

/-- The filenames written by a trace (checkpoints and saved models). -/
def writesOf (evs : List Event) : List String :=
  evs.filterMap (fun ev =>
    match ev with
    | Event.checkpointWrite f => some f
    | Event.saveWrite f => some f
    | _ => none)

/-- Whether an event is a sink call reporting the test metrics (its first
reported name is "Test loss"). -/
def isTestReport : Event → Bool
  | Event.sinkCall (("Test loss", _) :: _) => true
  | _ => false

/-- Whether an event is an `evaluate_generator` call. -/
def isEval : Event → Bool
  | Event.evaluateCall _ => true
  | _ => false

/-- A sink that always returns normally. -/
def okSink : Sink := fun _ => none

/-- A sink whose reporting call always raises (e.g. the monitoring agent
is unreachable). -/
def failSink : Sink := fun _ => some "ConnectionError"

/-- A filesystem on which both data directories exist and are empty. -/
def fsEmpty : String → Except String Nat := fun _ => Except.ok 0

/-- A filesystem on which the train directory is missing. -/
def fsNoTrain : String → Except String Nat := fun p =>
  if p == "./train/" then Except.error "FileNotFoundError: ./train/" else Except.ok 0

/-- A filesystem on which the test directory is missing but the train
directory holds 64 images. -/
def fsNoTest : String → Except String Nat := fun p =>
  if p == "./test/" then Except.error "FileNotFoundError: ./test/" else Except.ok 64

/-- Trivial batch logs for the phase-1 fit. -/
def emptyLogs1 : Nat → Nat → Logs := fun _ _ => []

/-- Trivial batch logs for the fine-tuning loop. -/
def emptyLogs2 : Nat → Nat → Nat → Logs := fun _ _ _ => []

/-- A trivial evaluation result. -/
def zeroEval : Nat → ℚ × ℚ := fun _ => (0, 0)

/-- A well-formed logs dictionary holding both expected keys. -/
def sampleLogs : Logs :=
  [("loss", PyVal.num (1 / 2)), ("categorical_accuracy", PyVal.num (3 / 4))]

/-! ### Helper lemmas -/

lemma on_batch_end_snd (sink : Sink) (b : Nat) (logs : Logs) :
    (on_batch_end sink b logs).2 = none := by
  unfold on_batch_end
  rcases h : tryReportTrain sink logs with ⟨evs, r⟩
  cases r <;> simp

lemma tryReportTrain_events (sink : Sink) (logs : Logs) :
    ((tryReportTrain sink logs).1.filter isTestReport = []
      ∧ (tryReportTrain sink logs).1.filter isEval = [])
    ∧ writesOf (tryReportTrain sink logs).1 = []
    ∧ readsOf (tryReportTrain sink logs).1 = [] := by
  unfold tryReportTrain
  repeat' split
  all_goals simp [isTestReport, isEval, writesOf, readsOf]

lemma on_batch_end_events (sink : Sink) (b : Nat) (logs : Logs) :
    ((on_batch_end sink b logs).1.filter isTestReport = []
      ∧ (on_batch_end sink b logs).1.filter isEval = [])
    ∧ writesOf (on_batch_end sink b logs).1 = []
    ∧ readsOf (on_batch_end sink b logs).1 = [] := by
  have h2 := tryReportTrain_events sink logs
  unfold on_batch_end
  rcases h : tryReportTrain sink logs with ⟨evs, r⟩
  rw [h] at h2
  cases r <;>
    simp only [List.filter_append, writesOf, readsOf, List.filterMap_append] at h2 ⊢ <;>
    simp [h2.1.1, h2.1.2, h2.2.1, h2.2.2, isTestReport, isEval, writesOf, readsOf]

lemma runSeq_ok (f : Nat → List Event × Option String)
    (h : ∀ i, (f i).2 = none) :
    ∀ k s, runSeq f s k = ((List.range' s k).flatMap (fun i => (f i).1), none) := by
  intro k
  induction k with
  | zero => intro s; simp [runSeq]
  | succ n ih =>
    intro s
    have hs := h s
    unfold runSeq
    rcases hf : f s with ⟨evs, r⟩
    rw [hf] at hs
    simp only at hs
    subst hs
    rw [ih (s + 1)]
    simp [List.range'_succ, hf]

lemma runSeq_err (f : Nat → List Event × Option String) (s k : Nat) (e : String)
    (h : (f s).2 = some e) (hk : 0 < k) :
    (runSeq f s k).2 = some e := by
  rcases k with _ | n
  · exact absurd hk (by simp)
  · unfold runSeq
    rcases hf : f s with ⟨evs, r⟩
    rw [hf] at h
    simp only at h
    subst h
    simp

lemma fit_generator_eq (sink : Sink) (logsOf : Nat → Nat → Logs)
    (steps epochs : Nat) :
    fit_generator sink logsOf steps epochs =
      ((List.range' 0 epochs).flatMap (fun e =>
        ((List.range' 0 steps).flatMap (fun b => (on_batch_end sink b (logsOf e b)).1))
          ++ [Event.checkpointWrite (checkpointName (e + 1))]), none) := by
  unfold fit_generator
  have hinner : ∀ e, runSeq (fun b => on_batch_end sink b (logsOf e b)) 0 steps =
      ((List.range' 0 steps).flatMap (fun b => (on_batch_end sink b (logsOf e b)).1), none) :=
    fun e => runSeq_ok _ (fun b => on_batch_end_snd sink b (logsOf e b)) steps 0
  have houter : ∀ e, ((fun e =>
      match runSeq (fun b => on_batch_end sink b (logsOf e b)) 0 steps with
      | (evs, some err) => (evs, some err)
      | (evs, none) => (evs ++ [Event.checkpointWrite (checkpointName (e + 1))], none)) e).2 = none := by
    intro e
    simp only [hinner e]
  rw [runSeq_ok _ houter epochs 0]
  congr 1
  apply List.flatMap_congr
  intro e _
  simp only [hinner e]

lemma fineTuneIter_ok (sink : Sink) (logsOf : Nat → Nat → Nat → Logs)
    (evalRes : Nat → ℚ × ℚ) (sTrain sTest i : Nat)
    (h : sink (testArgs (evalRes i)) = none) :
    fineTuneIter sink logsOf evalRes sTrain sTest i =
      ((fit_generator sink (logsOf i) sTrain 1).1
        ++ [Event.evaluateCall sTest, Event.sinkCall (testArgs (evalRes i))], none) := by
  unfold fineTuneIter
  rw [fit_generator_eq]
  simp [TEST_INTERVAL, Nat.mod_one, h]

lemma fineTuneLoop_ok (sink : Sink) (logsOf : Nat → Nat → Nat → Logs)
    (evalRes : Nat → ℚ × ℚ) (sTrain sTest : Nat)
    (h : ∀ i, sink (testArgs (evalRes i)) = none) :
    fineTuneLoop sink logsOf evalRes sTrain sTest =
      ((List.range' 0 EPOCHS).flatMap (fun i =>
        (fit_generator sink (logsOf i) sTrain 1).1
          ++ [Event.evaluateCall sTest, Event.sinkCall (testArgs (evalRes i))]), none) := by
  unfold fineTuneLoop
  have h2 : ∀ i, (fineTuneIter sink logsOf evalRes sTrain sTest i).2 = none := by
    intro i
    rw [fineTuneIter_ok sink logsOf evalRes sTrain sTest i (h i)]
  rw [runSeq_ok _ h2 EPOCHS 0]
  congr 1
  apply List.flatMap_congr
  intro i _
  rw [fineTuneIter_ok sink logsOf evalRes sTrain sTest i (h i)]

lemma fineTuneLoop_err (sink : Sink) (logsOf : Nat → Nat → Nat → Logs)
    (evalRes : Nat → ℚ × ℚ) (sTrain sTest : Nat) (e : String)
    (h : sink (testArgs (evalRes 0)) = some e) :
    (fineTuneLoop sink logsOf evalRes sTrain sTest).2 = some e := by
  unfold fineTuneLoop
  apply runSeq_err
  · unfold fineTuneIter
    rw [fit_generator_eq]
    simp [TEST_INTERVAL, Nat.mod_one, h]
  · simp [EPOCHS]

lemma writesOf_append (xs ys : List Event) :
    writesOf (xs ++ ys) = writesOf xs ++ writesOf ys := by
  simp [writesOf, List.filterMap_append]

lemma readsOf_append (xs ys : List Event) :
    readsOf (xs ++ ys) = readsOf xs ++ readsOf ys := by
  simp [readsOf, List.filterMap_append]

lemma writesOf_flatMap {α : Type} (l : List α) (f : α → List Event) :
    writesOf (l.flatMap f) = l.flatMap (fun a => writesOf (f a)) := by
  induction l with
  | nil => rfl
  | cons a t ih => simp [List.flatMap_cons, writesOf_append, ih]

lemma readsOf_flatMap {α : Type} (l : List α) (f : α → List Event) :
    readsOf (l.flatMap f) = l.flatMap (fun a => readsOf (f a)) := by
  induction l with
  | nil => rfl
  | cons a t ih => simp [List.flatMap_cons, readsOf_append, ih]

lemma filter_flatMap {α : Type} (l : List α) (f : α → List Event) (p : Event → Bool) :
    (l.flatMap f).filter p = l.flatMap (fun a => (f a).filter p) := by
  induction l with
  | nil => rfl
  | cons a t ih => simp [List.flatMap_cons, List.filter_append, ih]

lemma flatMap_nil_fun {α β : Type} (l : List α) (f : α → List β)
    (h : ∀ a, f a = []) : l.flatMap f = [] := by
  induction l with
  | nil => rfl
  | cons a t ih => simp [List.flatMap_cons, h a, ih]

lemma flatMap_singleton_fun {α β : Type} (l : List α) (f : α → β) :
    l.flatMap (fun a => [f a]) = l.map f := by
  induction l with
  | nil => rfl
  | cons a t ih => simp [List.flatMap_cons, ih]

lemma fit_filter_test (sink : Sink) (lg : Nat → Nat → Logs) (steps epochs : Nat) :
    (fit_generator sink lg steps epochs).1.filter isTestReport = [] := by
  rw [fit_generator_eq]
  simp only
  rw [filter_flatMap]
  apply flatMap_nil_fun
  intro e
  rw [List.filter_append, filter_flatMap]
  rw [flatMap_nil_fun _ _ (fun b => (on_batch_end_events sink b (lg e b)).1.1)]
  simp [isTestReport]

lemma fit_filter_eval (sink : Sink) (lg : Nat → Nat → Logs) (steps epochs : Nat) :
    (fit_generator sink lg steps epochs).1.filter isEval = [] := by
  rw [fit_generator_eq]
  simp only
  rw [filter_flatMap]
  apply flatMap_nil_fun
  intro e
  rw [List.filter_append, filter_flatMap]
  rw [flatMap_nil_fun _ _ (fun b => (on_batch_end_events sink b (lg e b)).1.2)]
  simp [isEval]

lemma fit_writes (sink : Sink) (lg : Nat → Nat → Logs) (steps epochs : Nat) :
    writesOf (fit_generator sink lg steps epochs).1 =
      (List.range' 0 epochs).map (fun e => checkpointName (e + 1)) := by
  rw [fit_generator_eq]
  simp only
  rw [writesOf_flatMap]
  rw [List.flatMap_congr (g := fun e => [checkpointName (e + 1)])]
  · rw [flatMap_singleton_fun]
  · intro e _
    rw [writesOf_append, writesOf_flatMap,
      flatMap_nil_fun (List.range' 0 steps)
        (fun b => writesOf (on_batch_end sink b (lg e b)).1)
        (fun b => (on_batch_end_events sink b (lg e b)).2.1)]
    simp [writesOf]

lemma fit_reads (sink : Sink) (lg : Nat → Nat → Logs) (steps epochs : Nat) :
    readsOf (fit_generator sink lg steps epochs).1 = [] := by
  rw [fit_generator_eq]
  simp only
  rw [readsOf_flatMap]
  apply flatMap_nil_fun
  intro e
  rw [readsOf_append, readsOf_flatMap,
    flatMap_nil_fun (List.range' 0 steps)
      (fun b => readsOf (on_batch_end sink b (lg e b)).1)
      (fun b => (on_batch_end_events sink b (lg e b)).2.2)]
  simp [readsOf]

lemma runSeq_events_mem (f : Nat → List Event × Option String) (ev : Event) :
    ∀ k s, ev ∈ (runSeq f s k).1 → ∃ i, ev ∈ (f i).1 := by
  intro k
  induction k with
  | zero => intro s h; simp [runSeq] at h
  | succ n ih =>
    intro s h
    unfold runSeq at h
    rcases hf : f s with ⟨evs, r⟩
    rw [hf] at h
    rcases r with _ | e
    · rcases hrec : runSeq f (s + 1) n with ⟨evs2, r2⟩
      simp only [hrec] at h
      rcases List.mem_append.mp h with h1 | h2
      · exact ⟨s, by rw [hf]; exact h1⟩
      · exact ih (s + 1) (by rw [hrec]; exact h2)
    · exact ⟨s, by rw [hf]; exact h⟩

lemma fineTuneIter_ckpt (sink : Sink) (logsOf : Nat → Nat → Nat → Logs)
    (evalRes : Nat → ℚ × ℚ) (sTrain sTest i : Nat) (fn : String)
    (h : Event.checkpointWrite fn ∈ (fineTuneIter sink logsOf evalRes sTrain sTest i).1) :
    fn = checkpointName 1 := by
  unfold fineTuneIter at h
  rcases hfit : fit_generator sink (logsOf i) sTrain 1 with ⟨evs, r⟩
  have hr : r = none := by
    have h2 := congrArg Prod.snd (fit_generator_eq sink (logsOf i) sTrain 1)
    rw [hfit] at h2
    exact h2
  subst hr
  rw [hfit] at h
  simp only [TEST_INTERVAL, Nat.mod_one, beq_self_eq_true, if_true] at h
  have hevs : Event.checkpointWrite fn ∈ evs := by
    rcases hs : sink (testArgs (evalRes i)) with _ | e <;> rw [hs] at h <;>
      simp only [List.mem_append, List.mem_cons, List.mem_singleton] at h <;>
      rcases h with h | h
    · exact h
    · simp at h
    · exact h
    · simp at h
  have hwr : fn ∈ writesOf evs := List.mem_filterMap.mpr ⟨Event.checkpointWrite fn, hevs, rfl⟩
  have hw2 := fit_writes sink (logsOf i) sTrain 1
  rw [hfit] at hw2
  rw [hw2] at hwr
  simpa using hwr

lemma loop_filter_test (sink : Sink) (logsOf : Nat → Nat → Nat → Logs)
    (evalRes : Nat → ℚ × ℚ) (sTrain sTest : Nat)
    (h : ∀ i, sink (testArgs (evalRes i)) = none) :
    (fineTuneLoop sink logsOf evalRes sTrain sTest).1.filter isTestReport =
      (List.range' 0 EPOCHS).map (fun i => Event.sinkCall (testArgs (evalRes i))) := by
  rw [fineTuneLoop_ok sink logsOf evalRes sTrain sTest h]
  simp only
  rw [filter_flatMap]
  rw [List.flatMap_congr (g := fun i => [Event.sinkCall (testArgs (evalRes i))])]
  · rw [flatMap_singleton_fun]
  · intro i _
    rw [List.filter_append, fit_filter_test]
    simp [isTestReport, isEval, testArgs]

lemma loop_filter_eval (sink : Sink) (logsOf : Nat → Nat → Nat → Logs)
    (evalRes : Nat → ℚ × ℚ) (sTrain sTest : Nat)
    (h : ∀ i, sink (testArgs (evalRes i)) = none) :
    (fineTuneLoop sink logsOf evalRes sTrain sTest).1.filter isEval =
      List.replicate EPOCHS (Event.evaluateCall sTest) := by
  rw [fineTuneLoop_ok sink logsOf evalRes sTrain sTest h]
  simp only
  rw [filter_flatMap]
  rw [List.flatMap_congr (g := fun _ => [Event.evaluateCall sTest])]
  · rw [flatMap_singleton_fun]
    simp [List.map_const']
  · intro i _
    rw [List.filter_append, fit_filter_eval]
    simp [isEval, testArgs]

lemma loop_writes (sink : Sink) (logsOf : Nat → Nat → Nat → Logs)
    (evalRes : Nat → ℚ × ℚ) (sTrain sTest : Nat)
    (h : ∀ i, sink (testArgs (evalRes i)) = none) :
    writesOf (fineTuneLoop sink logsOf evalRes sTrain sTest).1 =
      List.replicate EPOCHS (checkpointName 1) := by
  rw [fineTuneLoop_ok sink logsOf evalRes sTrain sTest h]
  simp only
  rw [writesOf_flatMap]
  rw [List.flatMap_congr (g := fun _ => [checkpointName 1])]
  · rw [flatMap_singleton_fun]
    simp [List.map_const']
  · intro i _
    rw [writesOf_append, fit_writes]
    simp [writesOf, List.range'_one]

lemma loop_reads (sink : Sink) (logsOf : Nat → Nat → Nat → Logs)
    (evalRes : Nat → ℚ × ℚ) (sTrain sTest : Nat)
    (h : ∀ i, sink (testArgs (evalRes i)) = none) :
    readsOf (fineTuneLoop sink logsOf evalRes sTrain sTest).1 = [] := by
  rw [fineTuneLoop_ok sink logsOf evalRes sTrain sTest h]
  simp only
  rw [readsOf_flatMap]
  apply flatMap_nil_fun
  intro i
  rw [readsOf_append, fit_reads]
  simp [readsOf]

lemma script_ok (fs : String → Except String Nat) (sink : Sink) (bl : List Layer)
    (l1 : Nat → Nat → Logs) (l2 : Nat → Nat → Nat → Logs)
    (ev : Nat → ℚ × ℚ) (ts : Nat) (n m : Nat)
    (hTrain : fs "./train/" = Except.ok n) (hTest : fs "./test/" = Except.ok m)
    (hsink : ∀ args, sink args = none) :
    script fs sink bl l1 l2 ev ts =
      ([Event.flowFromDirectory "./train/"]
        ++ (fit_generator sink l1 (step_size n) 50).1
        ++ layerPrintEvents bl
        ++ [Event.flowFromDirectory "./train/", Event.flowFromDirectory "./test/"]
        ++ (fineTuneLoop sink l2 ev (step_size n) (step_size m)).1
        ++ [Event.saveWrite (finalModelName ts),
            Event.evaluateCall (step_size m),
            Event.printed "test loss and accuracy"], none) := by
  unfold script
  rw [hTrain, hTest]
  dsimp only
  rcases hfit : fit_generator sink l1 (step_size n) 50 with ⟨evs1, r1⟩
  have hr1 : r1 = none := by
    have h2 := congrArg Prod.snd (fit_generator_eq sink l1 (step_size n) 50)
    rw [hfit] at h2
    exact h2
  subst hr1
  rcases hloop : fineTuneLoop sink l2 ev (step_size n) (step_size m) with ⟨evs2, r2⟩
  have hr2 : r2 = none := by
    have h2 := congrArg Prod.snd
      (fineTuneLoop_ok sink l2 ev (step_size n) (step_size m) (fun i => hsink _))
    rw [hloop] at h2
    exact h2
  subst hr2
  simp [List.append_assoc]

lemma layerPrint_events (bl : List Layer) :
    (readsOf (layerPrintEvents bl) = [] ∧ writesOf (layerPrintEvents bl) = [])
    ∧ (layerPrintEvents bl).filter isEval = [] := by
  unfold layerPrintEvents
  induction bl.enum with
  | nil => simp [readsOf, writesOf]
  | cons a t ih =>
    simp only [List.map_cons, readsOf, writesOf, List.filterMap_cons, List.filter_cons] at ih ⊢
    simpa [isEval] using ih

lemma not_mem_of_filter_nil {p : Event → Bool} {l : List Event}
    (h : l.filter p = []) (ev : Event) (hp : p ev = true) : ev ∉ l := by
  intro hm
  have h2 : ev ∈ l.filter p := List.mem_filter.mpr ⟨hm, hp⟩
  rw [h] at h2
  simp at h2

lemma script_err_train (fs : String → Except String Nat) (sink : Sink) (bl : List Layer)
    (l1 : Nat → Nat → Logs) (l2 : Nat → Nat → Nat → Logs)
    (ev : Nat → ℚ × ℚ) (ts : Nat) (e : String)
    (h : fs "./train/" = Except.error e) :
    (script fs sink bl l1 l2 ev ts).2 = some e := by
  unfold script
  rw [h]

lemma script_err_test (fs : String → Except String Nat) (sink : Sink) (bl : List Layer)
    (l1 : Nat → Nat → Logs) (l2 : Nat → Nat → Nat → Logs)
    (ev : Nat → ℚ × ℚ) (ts : Nat) (n : Nat) (e : String)
    (hTrain : fs "./train/" = Except.ok n) (hTest : fs "./test/" = Except.error e) :
    (script fs sink bl l1 l2 ev ts).2 = some e := by
  unfold script
  rw [hTrain, hTest]
  dsimp only
  rcases hfit : fit_generator sink l1 (step_size n) 50 with ⟨evs1, r1⟩
  have hr1 : r1 = none := by
    have h2 := congrArg Prod.snd (fit_generator_eq sink l1 (step_size n) 50)
    rw [hfit] at h2
    exact h2
  subst hr1
  rfl

lemma script_err_sinkTest (fs : String → Except String Nat) (sink : Sink) (bl : List Layer)
    (l1 : Nat → Nat → Logs) (l2 : Nat → Nat → Nat → Logs)
    (ev : Nat → ℚ × ℚ) (ts : Nat) (n m : Nat) (e : String)
    (hTrain : fs "./train/" = Except.ok n) (hTest : fs "./test/" = Except.ok m)
    (hs : sink (testArgs (ev 0)) = some e) :
    (script fs sink bl l1 l2 ev ts).2 = some e := by
  unfold script
  rw [hTrain, hTest]
  dsimp only
  rcases hfit : fit_generator sink l1 (step_size n) 50 with ⟨evs1, r1⟩
  have hr1 : r1 = none := by
    have h2 := congrArg Prod.snd (fit_generator_eq sink l1 (step_size n) 50)
    rw [hfit] at h2
    exact h2
  subst hr1
  rcases hloop : fineTuneLoop sink l2 ev (step_size n) (step_size m) with ⟨evs2, r2⟩
  have hr2 : r2 = some e := by
    have h2 := fineTuneLoop_err sink l2 ev (step_size n) (step_size m) e hs
    rw [hloop] at h2
    exact h2
  subst hr2
  rfl

lemma phase2Freeze_length (ls : List Layer) :
    (phase2Freeze ls).length = ls.length := by
  simp [phase2Freeze]
  omega

lemma phase2Freeze_getElem (ls : List Layer) (i : Nat) :
    (phase2Freeze ls)[i]? =
      (ls[i]?).map (fun l => { l with trainable := decide (249 ≤ i) }) := by
  rcases Nat.lt_or_ge i ls.length with hl | hl
  · rcases Nat.lt_or_ge i 249 with hi | hi
    · have h1 : i < ((ls.take 249).map fun l => { l with trainable := false }).length := by
        simp
        omega
      unfold phase2Freeze
      rw [List.getElem?_append, if_pos h1, List.getElem?_map, List.getElem?_take, if_pos hi]
      have hd : decide (249 ≤ i) = false := by
        simp only [decide_eq_false_iff_not]
        omega
      rw [hd]
    · have h1 : ((ls.take 249).map fun l => { l with trainable := false }).length ≤ i := by
        simp
        omega
      unfold phase2Freeze
      rw [List.getElem?_append, if_neg (by omega), List.getElem?_map, List.getElem?_drop]
      have hlen : ((ls.take 249).map fun l => { l with trainable := false }).length = 249 := by
        simp
        omega
      rw [hlen]
      have h249 : 249 + (i - 249) = i := by omega
      rw [h249]
      have hd : decide (249 ≤ i) = true := by
        simp only [decide_eq_true_eq]
        exact hi
      rw [hd]
  · rw [List.getElem?_eq_none (by rw [phase2Freeze_length]; omega),
        List.getElem?_eq_none hl]
    rfl

/-! ### Claim theorems -/

/-- Claim C3: training proceeds in two phases. Phase one freezes every
backbone layer (`trainable := false` for each of `base_model.layers`)
while the newly added classifier layers stay trainable, and the model is
compiled with the `rmsprop` optimizer. Phase two freezes exactly the
layers with index below 249, makes every layer from index 249 onward
trainable, and recompiles with a different optimizer at a lower learning
rate: SGD with lr = 0.0001 (and momentum 0.9). -/
theorem two_phase_training (baseInput : String) (baseLayers ls : List Layer) (i j : Nat) :
    ((modelAfterPhase1Freeze baseInput baseLayers).layers = freezeAll baseLayers ++ headLayers
      ∧ (freezeAll baseLayers)[j]? =
          (baseLayers[j]?).map (fun l => { l with trainable := false })
      ∧ headLayers.all (fun l => l.trainable) = true
      ∧ compile1.optimizer = Optimizer.rmsprop)
    ∧ ((phase2Freeze ls)[i]? =
          (ls[i]?).map (fun l => { l with trainable := decide (249 ≤ i) })
      ∧ compile2.optimizer = Optimizer.sgd (1 / 10000) (9 / 10)
      ∧ compile2.optimizer ≠ compile1.optimizer) := by
  refine ⟨⟨rfl, ?_, by decide, rfl⟩, phase2Freeze_getElem ls i, rfl, by decide⟩
  simp [freezeAll]

/-- Claim C4: the constructed model keeps the pretrained backbone's
input and replaces its output head: the layer list is the backbone's
layers followed by the new global-average-pooling layer and three
fully-connected ReLU layers, and the final output layer is a Dense layer
with exactly 2 units and softmax activation. -/
theorem model_output_head (baseInput : String) (baseLayers : List Layer) :
    (modelAfterBuild baseInput baseLayers).input = baseInput
    ∧ (modelAfterBuild baseInput baseLayers).layers =
        baseLayers ++ [pooling_layer, dense_1, dense_2, dense_3, predictions]
    ∧ (modelAfterBuild baseInput baseLayers).layers.getLast? = some predictions
    ∧ predictions.kind = LayerKind.dense 2 Activation.softmax
    ∧ pooling_layer.kind = LayerKind.globalAveragePooling2D
    ∧ dense_1.kind = LayerKind.dense 1024 Activation.relu
    ∧ dense_2.kind = LayerKind.dense 512 Activation.relu
    ∧ dense_3.kind = LayerKind.dense 32 Activation.relu := by
  refine ⟨rfl, rfl, ?_, rfl, rfl, rfl, rfl, rfl⟩
  unfold modelAfterBuild headLayers
  rw [List.getLast?_append_of_ne_nil _ (by simp)]
  rfl

/-- Claim C5: at the end of every training minibatch on which the logs
dictionary holds numeric `loss` and `categorical_accuracy` entries and
the sink accepts both calls, exactly two scalar metrics — the batch's
loss and categorical accuracy converted to floats — are forwarded to the
reporting sink, under the names "Train loss" and "Train accuracy", and
the callback returns normally. -/
theorem batch_metric_reports (sink : Sink) (b : Nat) (logs : Logs) (l a : ℚ)
    (h1 : dictGet logs "loss" = Except.ok (PyVal.num l))
    (h2 : dictGet logs "categorical_accuracy" = Except.ok (PyVal.num a))
    (h3 : sink [("Train loss", l)] = none)
    (h4 : sink [("Train accuracy", a)] = none) :
    on_batch_end sink b logs =
      ([Event.sinkCall [("Train loss", l)], Event.sinkCall [("Train accuracy", a)]], none) := by
  unfold on_batch_end tryReportTrain
  rw [h1, h2]
  simp [Except.bind, pyFloat, h3, h4]

/-- Witness for C5 at a concrete logs dictionary and an accepting sink. -/
theorem batch_metric_reports_witness :
    on_batch_end okSink 0 sampleLogs =
      ([Event.sinkCall [("Train loss", 1 / 2)], Event.sinkCall [("Train accuracy", 3 / 4)]],
        none) :=
  batch_metric_reports okSink 0 sampleLogs (1 / 2) (3 / 4) rfl rfl rfl rfl

/-- Claim C10: `on_batch_end` is total with respect to exceptions: for
every sink behaviour and every logs dictionary — including one missing
the 'loss' or 'categorical_accuracy' key or holding a value `float`
rejects — the callback propagates no exception to its caller; whenever
the try body raises `e`, the broad except clause catches it and appends
a `print(e)` event instead. -/
theorem on_batch_end_total (sink : Sink) (b : Nat) (logs : Logs) :
    (on_batch_end sink b logs).2 = none
    ∧ (∀ e, (tryReportTrain sink logs).2 = some e →
        (on_batch_end sink b logs).1 = (tryReportTrain sink logs).1 ++ [Event.printed e]) := by
  refine ⟨on_batch_end_snd sink b logs, ?_⟩
  intro e h
  unfold on_batch_end
  rcases ht : tryReportTrain sink logs with ⟨evs, r⟩
  rw [ht] at h
  simp only at h
  subst h
  rfl

/-- Witness for C10 at the empty logs dictionary, whose subscript raises
a KeyError that the except clause turns into a printed message. -/
theorem on_batch_end_total_witness :
    (on_batch_end okSink 0 []).2 = none
    ∧ (tryReportTrain okSink []).2 = some "KeyError: loss"
    ∧ (on_batch_end okSink 0 []).1 =
        (tryReportTrain okSink []).1 ++ [Event.printed "KeyError: loss"] :=
  ⟨(on_batch_end_total okSink 0 []).1, rfl,
    (on_batch_end_total okSink 0 []).2 "KeyError: loss" rfl⟩

/-- Claim C8: every `fit_generator` call in the fine-tuning loop uses
`epochs=1`, so the `ModelCheckpoint` filename evaluates to the same
string `weights.01.hdf5` on every one of the iterations: every
checkpoint file written during the fine-tuning loop bears that one name,
so each phase-2 checkpoint overwrites the previous one and at most one
distinct phase-2 checkpoint file ever exists. -/
theorem loop_checkpoint_one_name (sink : Sink) (logsOf : Nat → Nat → Nat → Logs)
    (evalRes : Nat → ℚ × ℚ) (sTrain sTest : Nat) (fn : String)
    (h : Event.checkpointWrite fn ∈ (fineTuneLoop sink logsOf evalRes sTrain sTest).1) :
    fn = "weights.01.hdf5" := by
  unfold fineTuneLoop at h
  obtain ⟨i, hi⟩ := runSeq_events_mem _ _ EPOCHS 0 h
  have h2 := fineTuneIter_ckpt sink logsOf evalRes sTrain sTest i fn hi
  rw [h2]
  rfl

/-- Witness for C8 on a concrete run of the fine-tuning loop that does
write a checkpoint. -/
theorem loop_checkpoint_one_name_witness :
    Event.checkpointWrite "weights.01.hdf5" ∈
        (fineTuneLoop okSink emptyLogs2 zeroEval 0 0).1
    ∧ "weights.01.hdf5" = "weights.01.hdf5" :=
  ⟨by decide,
    loop_checkpoint_one_name okSink emptyLogs2 zeroEval 0 0 "weights.01.hdf5" (by decide)⟩

/-- Counterexample to claim C1 as stated: there is an execution in which
a failure raised by the reporting sink aborts training. With both data
directories present and a sink whose every call raises "ConnectionError",
the script terminates with that uncaught exception, raised by the
per-test-interval test-metric report — which, unlike the per-minibatch
reports, is not wrapped in any try/except. -/
theorem sink_failure_aborts_script :
    (script fsEmpty failSink [] emptyLogs1 emptyLogs2 zeroEval 0).2 =
      some "ConnectionError" :=
  script_err_sinkTest fsEmpty failSink [] emptyLogs1 emptyLogs2 zeroEval 0 0 0 "ConnectionError" rfl rfl rfl

/-- Claim C1 (amended): only the per-minibatch train-metric report is
wrapped in broad catch-and-print error suppression — a sink failure in
`on_batch_end` never propagates — while the per-test-interval test-metric
report is unguarded, so a sink failure raised there propagates out of
the fine-tuning loop and aborts training. -/
theorem metric_report_guards (sink : Sink) (b : Nat) (logs : Logs)
    (logsOf : Nat → Nat → Nat → Logs) (evalRes : Nat → ℚ × ℚ)
    (sTrain sTest : Nat) (e : String)
    (h : sink (testArgs (evalRes 0)) = some e) :
    (on_batch_end sink b logs).2 = none
    ∧ (fineTuneLoop sink logsOf evalRes sTrain sTest).2 = some e :=
  ⟨on_batch_end_snd sink b logs,
    fineTuneLoop_err sink logsOf evalRes sTrain sTest e h⟩

/-- Witness for the amended C1 with the always-raising sink. -/
theorem metric_report_guards_witness :
    (on_batch_end failSink 0 sampleLogs).2 = none
    ∧ (fineTuneLoop failSink emptyLogs2 zeroEval 0 0).2 = some "ConnectionError" :=
  metric_report_guards failSink 0 sampleLogs emptyLogs2 zeroEval 0 0 "ConnectionError" rfl

/-- Claim C2: during the fine-tuning phase, with TEST_INTERVAL = 1,
after every one of the EPOCHS = 10 epochs the model is evaluated on the
test generator and exactly two scalar metrics — the test loss and the
test accuracy — are forwarded to the monitoring sink (on a run where the
sink raises no exception). -/
theorem test_interval_reports (sink : Sink) (logsOf : Nat → Nat → Nat → Logs)
    (evalRes : Nat → ℚ × ℚ) (sTrain sTest : Nat)
    (h : ∀ args, sink args = none) :
    TEST_INTERVAL = 1 ∧ EPOCHS = 10
    ∧ (fineTuneLoop sink logsOf evalRes sTrain sTest).2 = none
    ∧ (fineTuneLoop sink logsOf evalRes sTrain sTest).1.filter isEval =
        List.replicate EPOCHS (Event.evaluateCall sTest)
    ∧ (fineTuneLoop sink logsOf evalRes sTrain sTest).1.filter isTestReport =
        (List.range' 0 EPOCHS).map (fun i =>
          Event.sinkCall [("Test loss", (evalRes i).1), ("Test accuracy", (evalRes i).2)]) := by
  have hok : ∀ i, sink (testArgs (evalRes i)) = none := fun i => h _
  refine ⟨rfl, rfl, ?_, loop_filter_eval sink logsOf evalRes sTrain sTest hok, ?_⟩
  · exact congrArg Prod.snd (fineTuneLoop_ok sink logsOf evalRes sTrain sTest hok)
  · have h2 := loop_filter_test sink logsOf evalRes sTrain sTest hok
    simpa [testArgs] using h2

/-- Witness for C2 on a concrete run of the fine-tuning loop. -/
theorem test_interval_reports_witness :
    TEST_INTERVAL = 1 ∧ EPOCHS = 10
    ∧ (fineTuneLoop okSink emptyLogs2 zeroEval 0 0).2 = none
    ∧ (fineTuneLoop okSink emptyLogs2 zeroEval 0 0).1.filter isEval =
        List.replicate EPOCHS (Event.evaluateCall 0)
    ∧ (fineTuneLoop okSink emptyLogs2 zeroEval 0 0).1.filter isTestReport =
        (List.range' 0 EPOCHS).map (fun i =>
          Event.sinkCall [("Test loss", (zeroEval i).1), ("Test accuracy", (zeroEval i).2)]) :=
  test_interval_reports okSink emptyLogs2 zeroEval 0 0 (fun _ => rfl)

/-- Claim C6: on a run whose data directories are present and whose sink
raises nothing, the script reads exactly the `./train/` tree (twice) and
the `./test/` tree, and the files it writes are exactly the per-epoch
checkpoints `weights.<epoch>.hdf5` (epochs 01..50 of phase one, then
`weights.01.hdf5` for each of the EPOCHS fine-tuning iterations) and one
final model file `tmnt_koopa_<timestamp>.h5`, where the timestamp is the
value of `int(time.time() * 1000)`. -/
theorem files_read_written (fs : String → Except String Nat) (sink : Sink) (bl : List Layer)
    (l1 : Nat → Nat → Logs) (l2 : Nat → Nat → Nat → Logs)
    (ev : Nat → ℚ × ℚ) (ts : Nat) (n m : Nat)
    (hTrain : fs "./train/" = Except.ok n) (hTest : fs "./test/" = Except.ok m)
    (hsink : ∀ args, sink args = none) :
    readsOf (script fs sink bl l1 l2 ev ts).1 = ["./train/", "./train/", "./test/"]
    ∧ writesOf (script fs sink bl l1 l2 ev ts).1 =
        (List.range' 0 50).map (fun e => checkpointName (e + 1))
          ++ List.replicate EPOCHS (checkpointName 1)
          ++ [finalModelName ts]
    ∧ checkpointName 1 = "weights.01.hdf5"
    ∧ finalModelName ts = "tmnt_koopa_" ++ toString ts ++ ".h5"
    ∧ (script fs sink bl l1 l2 ev ts).2 = none := by
  have hok : ∀ i, sink (testArgs (ev i)) = none := fun i => hsink _
  rw [script_ok fs sink bl l1 l2 ev ts n m hTrain hTest hsink]
  refine ⟨?_, ?_, rfl, rfl, rfl⟩
  · rw [show ((([Event.flowFromDirectory "./train/"]
        ++ (fit_generator sink l1 (step_size n) 50).1
        ++ layerPrintEvents bl
        ++ [Event.flowFromDirectory "./train/", Event.flowFromDirectory "./test/"]
        ++ (fineTuneLoop sink l2 ev (step_size n) (step_size m)).1
        ++ [Event.saveWrite (finalModelName ts),
            Event.evaluateCall (step_size m),
            Event.printed "test loss and accuracy"], (none : Option String)).1) =
        [Event.flowFromDirectory "./train/"]
        ++ (fit_generator sink l1 (step_size n) 50).1
        ++ layerPrintEvents bl
        ++ [Event.flowFromDirectory "./train/", Event.flowFromDirectory "./test/"]
        ++ (fineTuneLoop sink l2 ev (step_size n) (step_size m)).1
        ++ [Event.saveWrite (finalModelName ts),
            Event.evaluateCall (step_size m),
            Event.printed "test loss and accuracy"]) from rfl]
    rw [readsOf_append, readsOf_append, readsOf_append, readsOf_append, readsOf_append,
      fit_reads, loop_reads sink l2 ev (step_size n) (step_size m) hok,
      (layerPrint_events bl).1.1]
    rfl
  · rw [writesOf_append, writesOf_append, writesOf_append, writesOf_append, writesOf_append,
      fit_writes, loop_writes sink l2 ev (step_size n) (step_size m) hok,
      (layerPrint_events bl).1.2]
    rfl

/-- Witness for C6 on a concrete environment. -/
theorem files_read_written_witness :
    readsOf (script fsEmpty okSink [] emptyLogs1 emptyLogs2 zeroEval 42).1 =
        ["./train/", "./train/", "./test/"]
    ∧ writesOf (script fsEmpty okSink [] emptyLogs1 emptyLogs2 zeroEval 42).1 =
        (List.range' 0 50).map (fun e => checkpointName (e + 1))
          ++ List.replicate EPOCHS (checkpointName 1)
          ++ [finalModelName 42]
    ∧ checkpointName 1 = "weights.01.hdf5"
    ∧ finalModelName 42 = "tmnt_koopa_" ++ toString 42 ++ ".h5"
    ∧ (script fsEmpty okSink [] emptyLogs1 emptyLogs2 zeroEval 42).2 = none :=
  files_read_written fsEmpty okSink [] emptyLogs1 emptyLogs2 zeroEval 42 0 0 rfl rfl
    (fun _ => rfl)

/-- Claim C7: apart from the guarded metrics-reporting call in
`on_batch_end` (which never propagates), no exception is caught anywhere
in the program: a missing train directory, a missing test directory, or
a failure of the unguarded test-metric reporting call each propagates
uncaught out of the script and terminates it. -/
theorem uncaught_propagation (fs : String → Except String Nat) (sink : Sink)
    (bl : List Layer) (l1 : Nat → Nat → Logs) (l2 : Nat → Nat → Nat → Logs)
    (ev : Nat → ℚ × ℚ) (ts : Nat) (n m : Nat) (e : String) :
    (fs "./train/" = Except.error e → (script fs sink bl l1 l2 ev ts).2 = some e)
    ∧ (fs "./train/" = Except.ok n → fs "./test/" = Except.error e →
        (script fs sink bl l1 l2 ev ts).2 = some e)
    ∧ (fs "./train/" = Except.ok n → fs "./test/" = Except.ok m →
        sink (testArgs (ev 0)) = some e →
        (script fs sink bl l1 l2 ev ts).2 = some e)
    ∧ (∀ b logs, (on_batch_end sink b logs).2 = none) :=
  ⟨fun h => script_err_train fs sink bl l1 l2 ev ts e h,
   fun h1 h2 => script_err_test fs sink bl l1 l2 ev ts n e h1 h2,
   fun h1 h2 h3 => script_err_sinkTest fs sink bl l1 l2 ev ts n m e h1 h2 h3,
   fun b logs => on_batch_end_snd sink b logs⟩

/-- Witness for C7 on three concrete failing environments. -/
theorem uncaught_propagation_witness :
    (script fsNoTrain okSink [] emptyLogs1 emptyLogs2 zeroEval 0).2 =
        some "FileNotFoundError: ./train/"
    ∧ (script fsNoTest okSink [] emptyLogs1 emptyLogs2 zeroEval 0).2 =
        some "FileNotFoundError: ./test/"
    ∧ (script fsEmpty failSink [] emptyLogs1 emptyLogs2 zeroEval 1).2 =
        some "ConnectionError" :=
  ⟨(uncaught_propagation fsNoTrain okSink [] emptyLogs1 emptyLogs2 zeroEval 0 0 0
      "FileNotFoundError: ./train/").1 rfl,
   (uncaught_propagation fsNoTest okSink [] emptyLogs1 emptyLogs2 zeroEval 0 64 0
      "FileNotFoundError: ./test/").2.1 rfl rfl,
   (uncaught_propagation fsEmpty failSink [] emptyLogs1 emptyLogs2 zeroEval 1 0 0
      "ConnectionError").2.2.1 rfl rfl rfl⟩

/-- Claim C9: the per-epoch step counts are exact integer floor
divisions of the dataset size by the batch size 32 (`step_size n =
n / 32`); for a directory with fewer than 32 images the computed count
is 0; and on a normal run every `evaluate_generator` call in the script
is asked to run exactly `step_size m` steps for a test directory with
`m` images — hence zero steps when `m < 32`. -/
theorem step_counts_floor_div (fs : String → Except String Nat) (sink : Sink)
    (bl : List Layer) (l1 : Nat → Nat → Logs) (l2 : Nat → Nat → Nat → Logs)
    (ev : Nat → ℚ × ℚ) (ts : Nat) (n m s : Nat)
    (hTrain : fs "./train/" = Except.ok n) (hTest : fs "./test/" = Except.ok m)
    (hsink : ∀ args, sink args = none) :
    step_size n = n / 32
    ∧ (n < 32 → step_size n = 0)
    ∧ (Event.evaluateCall s ∈ (script fs sink bl l1 l2 ev ts).1 → s = step_size m) := by
  have hok : ∀ i, sink (testArgs (ev i)) = none := fun i => hsink _
  refine ⟨rfl, fun hn => Nat.div_eq_of_lt hn, fun hmem => ?_⟩
  rw [script_ok fs sink bl l1 l2 ev ts n m hTrain hTest hsink] at hmem
  rcases List.mem_append.mp hmem with h | hfin
  · rcases List.mem_append.mp h with h | hloop
    · rcases List.mem_append.mp h with h | hflows
      · rcases List.mem_append.mp h with h | hprints
        · rcases List.mem_append.mp h with hflow | hfit
          · simp at hflow
          · exact absurd hfit
              (not_mem_of_filter_nil (fit_filter_eval sink l1 (step_size n) 50) _ rfl)
        · exact absurd hprints (not_mem_of_filter_nil (layerPrint_events bl).2 _ rfl)
      · simp at hflows
    · have h2 : Event.evaluateCall s ∈
          (fineTuneLoop sink l2 ev (step_size n) (step_size m)).1.filter isEval :=
        List.mem_filter.mpr ⟨hloop, rfl⟩
      rw [loop_filter_eval sink l2 ev (step_size n) (step_size m) hok] at h2
      have h3 := List.eq_of_mem_replicate h2
      injection h3
  · simp only [List.mem_cons, List.not_mem_nil, or_false] at hfin
    rcases hfin with h | h | h
    · cases h
    · injection h
    · cases h

/-- Witness for C9 on a concrete environment (empty directories, so
every evaluate call runs zero steps). -/
theorem step_counts_floor_div_witness :
    step_size 0 = 0 / 32
    ∧ (0 < 32 → step_size 0 = 0)
    ∧ (Event.evaluateCall 7 ∈ (script fsEmpty okSink [] emptyLogs1 emptyLogs2 zeroEval 0).1 →
        7 = step_size 0) :=
  step_counts_floor_div fsEmpty okSink [] emptyLogs1 emptyLogs2 zeroEval 0 0 0 7 rfl rfl
    (fun _ => rfl)
